import Mathlib

/-!
Verification of the Zaman Bank browser client (login/session, goal dashboard,
AI chat with voice I/O, mockable HTTP layer) against its design document.

The development shallowly embeds the JavaScript modules:
* `src/ai_chat.js`   — the chat interaction controller, embedded as an explicit
  state machine over the DOM message list (`ChatState`, `handleSendMessage`,
  `resolveReply`, `rejectReply`, `declineAction`, `confirmAction`);
* `src/speech.js`    — the voice I/O adapter (`SpeechState`, `startListening`,
  `speak`, `stopSpeaking`, `setSpeechEnabled`);
* `src/validator.js` — the pure validators (`validateNumber`);
* the utility module — `calculatePercentage`;
* the API module's simulated backend — `mockPost`, `login`.

JS numbers are modelled as `ℚ` (exact arithmetic; `Math.round x` is
`⌊x + 1/2⌋`, matching JS round-half-toward-+∞ semantics), strings as Lean
`String`, and the DOM children of the chat message container as a `List Msg`.
The JS string builtins used by the code (`trim`, `includes`, `toLowerCase`)
are given executable Lean definitions over the character list so that claims
can be evaluated on concrete inputs.  Asynchronous continuations (promise
resolution/rejection, modal choices) are separate atomic steps, matching the
`await` suspension points of the code.
-/

/-- `String.prototype.trim`: strip leading and trailing whitespace. -/
def jsTrim (s : String) : String :=
  String.mk (((s.data.dropWhile Char.isWhitespace).reverse.dropWhile Char.isWhitespace).reverse)

/-- Character-list worker for `containsSub`: does the pattern occur at the
head of the list? -/
def startsWithChars : List Char → List Char → Bool
  | _, [] => true
  | [], _ :: _ => false
  | c :: cs, p :: ps => c = p && startsWithChars cs ps

/-- Character-list worker for `containsSub`: does the pattern occur anywhere? -/
def hasSubChars : List Char → List Char → Bool
  | [], p => p.isEmpty
  | c :: rest, p => startsWithChars (c :: rest) p || hasSubChars rest p

/-- `String.prototype.includes`: substring occurrence test. -/
def containsSub (s pat : String) : Bool :=
  hasSubChars s.data pat.data

/-- `String.prototype.toLowerCase`, restricted to ASCII letters; the canned
assistant-response keys in the API module are already-lowercase Cyrillic, for
which this restriction is immaterial to the claims settled here. -/
def jsToLowerCase (s : String) : String :=
  String.mk (s.data.map Char.toLower)

/-! ## Validators (src/validator.js) -/

/-- Result record `{ok, message}` returned by every validator. -/
structure VResult where
  ok : Bool
  message : String
deriving DecidableEq

/-- The max-bound tail of `validateNumber` (src/validator.js:74-78): reject
when a max bound is supplied and exceeded, else accept. -/
def vmaxCheck (num : ℚ) (max : Option ℚ) : VResult :=
  match max with
  | some mx => if num > mx then ⟨false, s!"Максимальное значение: {mx}"⟩ else ⟨true, ""⟩
  | none => ⟨true, ""⟩

/-- `validateNumber(value, min, max)` (src/validator.js:63-79).  The JS
builtin `parseFloat` is abstracted as the optional parsed numeric value:
`none` is the `isNaN` case, `some num` the parsed number.  Both bounds are
optional (`null` in the source, `none` here); checks run in source order. -/
def validateNumber (value : Option ℚ) (min max : Option ℚ) : VResult :=
  match value with
  | none => ⟨false, "Введите корректное число"⟩
  | some num =>
    match min with
    | some mn =>
      if num < mn then ⟨false, s!"Минимальное значение: {mn}"⟩
      else vmaxCheck num max
    | none => vmaxCheck num max

/-! ## Utility module (`calculatePercentage`) -/

/-- `Math.round`: round half toward positive infinity. -/
def jsRound (x : ℚ) : ℤ :=
  ⌊x + 1/2⌋

/-- `calculatePercentage(current, total)` from the utility module: `0` for a
zero total, otherwise `Math.min(Math.round(current/total*100), 100)`.  The
same expression is inlined in `renderGoalCard` (src/dashboard.js:98). -/
def calculatePercentage (current total : ℚ) : ℤ :=
  if total = 0 then 0 else min (jsRound (current / total * 100)) 100

/-! ## Voice I/O adapter (src/speech.js) -/

/-- Module-level state of src/speech.js: whether the `recognition` object has
been created by `init`, the `isListening` and `isSpeechEnabled` flags, the
utterance currently audible in the synthesiser (if any), and whether
`window.speechSynthesis` exists at all. -/
structure SpeechState where
  recognitionInit : Bool
  isListening : Bool
  isSpeechEnabled : Bool
  speaking : Option String
  synthAvail : Bool
deriving DecidableEq

/-- Calls emitted by one `startListening` invocation: whether `onError` fired
synchronously and whether a recognition session was opened. -/
structure StartEffects where
  errorCalled : Bool
  sessionStarted : Bool
deriving DecidableEq

/-- `startListening(onResult, onError)` (src/speech.js:44-84).  `supported`
is the platform capability probed by `isSupported`; `startThrows` is whether
the underlying `recognition.start()` throws.  When the recognition object is
missing and `init()` fails, `onError` fires and nothing changes; when already
listening the function silently returns; otherwise the listening flag is set
and the session started (reset with an `onError` call if `start()` throws). -/
def startListening (supported startThrows : Bool) (s : SpeechState) : SpeechState × StartEffects :=
  if s.recognitionInit = false && supported = false then
    (s, ⟨true, false⟩)
  else if ({ s with recognitionInit := true } : SpeechState).isListening then
    ({ s with recognitionInit := true }, ⟨false, false⟩)
  else if startThrows then
    ({ s with recognitionInit := true, isListening := false }, ⟨true, false⟩)
  else
    ({ s with recognitionInit := true, isListening := true }, ⟨false, true⟩)

/-- `stopSpeaking` (src/speech.js:133-137): cancel any utterance when the
synthesiser exists. -/
def stopSpeaking (s : SpeechState) : SpeechState :=
  if s.synthAvail then { s with speaking := none } else s

/-- `speak(text)` (src/speech.js:109-128): a no-op when speech output is
disabled or no synthesiser exists; otherwise cancel the current utterance and
start the new one (last call wins). -/
def speak (text : String) (s : SpeechState) : SpeechState :=
  if !s.isSpeechEnabled || !s.synthAvail then s
  else { s with speaking := some text }

/-- `setSpeechEnabled(enabled)` (src/speech.js:143-148): record the flag and,
on disabling, also `stopSpeaking`. -/
def setSpeechEnabled (enabled : Bool) (s : SpeechState) : SpeechState :=
  if enabled then { s with isSpeechEnabled := true }
  else stopSpeaking { s with isSpeechEnabled := false }

/-! ## Chat interaction controller (src/ai_chat.js) -/

/-- A child node of the chat `messagesContainer` in src/ai_chat.js: a user
message, an assistant message, or a typing-indicator placeholder
(`showTypingIndicator` gives each indicator a fresh DOM id). -/
inductive Msg where
  | user (text : String)
  | assistant (text : String)
  | indicator (id : Nat)
deriving DecidableEq

/-- The DOM id carried by an indicator node, `none` for real messages. -/
def indicatorId : Msg → Option Nat
  | .indicator i => some i
  | _ => none

/-- The ids of the typing-indicator placeholders currently in the container,
in document order. -/
def indicatorIds (msgs : List Msg) : List Nat :=
  msgs.filterMap indicatorId

/-- How many typing-indicator placeholders the container currently holds. -/
def indicatorCount (msgs : List Msg) : Nat :=
  (indicatorIds msgs).length

/-- `removeTypingIndicator` (src/ai_chat.js:197-202): `getElementById` finds
the first node with the given id and removes it; an absent id is a no-op. -/
def removeIndicator (id : Nat) : List Msg → List Msg
  | [] => []
  | m :: rest => if m = Msg.indicator id then rest else m :: removeIndicator id rest

/-- State of the chat interaction controller.  `messages` mirrors the
children of the chat container; `pending` holds the indicator ids of sends
whose `api.sendAIMessage` promise is still unresolved; `confirming` holds ids
of turns sitting in the suggested-action confirm dialog; `replyCalls` and
`execCalls` count requests issued to the `/ai/message` and `/ai/execute`
endpoints; `nextId` feeds fresh indicator ids (the code uses
`'typing-' + Date.now()`). -/
structure ChatState where
  messages : List Msg
  pending : List Nat
  confirming : List Nat
  replyCalls : Nat
  execCalls : Nat
  nextId : Nat
deriving DecidableEq

/-- State after `init` ran `displayWelcomeMessage` (src/ai_chat.js:66-74):
one assistant greeting for the current user's name, nothing in flight. -/
def initState (name : String) : ChatState :=
  { messages := [Msg.assistant
      ("Здравствуйте, " ++ name ++ "! Я ваш финансовый AI-помощник. Чем могу помочь сегодня?")],
    pending := [],
    confirming := [],
    replyCalls := 0,
    execCalls := 0,
    nextId := 0 }

/-- The synchronous prefix of `handleSendMessage` (src/ai_chat.js:79-95), up
to the `await api.sendAIMessage`: trim the input (`message = input.trim()`);
an empty trimmed value returns at once; otherwise clear the input buffer,
append the user message, append a fresh typing indicator, and issue the reply
request.  All three entry paths (send button, Enter key, voice transcript
auto-send) call this same function. -/
def handleSendMessage (s : ChatState) (input : String) : ChatState :=
  if (jsTrim input).isEmpty then s
  else
    { s with
      messages := s.messages ++ [Msg.user (jsTrim input), Msg.indicator s.nextId],
      pending := s.pending ++ [s.nextId],
      replyCalls := s.replyCalls + 1,
      nextId := s.nextId + 1 }

/-- The continuation of `handleSendMessage` when `api.sendAIMessage` resolves
(src/ai_chat.js:97-111): remove that turn's indicator, append the assistant
text; when the response carries a `suggested_action` the turn proceeds into
`handleSuggestedAction`'s confirm dialog.  (The `speech.speak` call on this
path acts on the speech module's state, modelled separately above.) -/
def resolveReply (s : ChatState) (id : Nat) (reply : String) (hasAction : Bool) : ChatState :=
  { s with
    messages := removeIndicator id s.messages ++ [Msg.assistant reply],
    pending := s.pending.erase id,
    confirming := if hasAction then s.confirming ++ [id] else s.confirming }

/-- The fixed apology appended by the `catch` block of `handleSendMessage`
(src/ai_chat.js:116). -/
def apologyText : String :=
  "Извините, произошла ошибка. Попробуйте снова."

/-- The `catch` block of `handleSendMessage` (src/ai_chat.js:113-117):
remove that turn's indicator and append the fixed apology; no retry. -/
def rejectReply (s : ChatState) (id : Nat) : ChatState :=
  { s with
    messages := removeIndicator id s.messages ++ [Msg.assistant apologyText],
    pending := s.pending.erase id }

/-- The user declining the confirm dialog in `handleSuggestedAction`
(src/ai_chat.js:209-216, `confirmed` false): the turn ends with no further
effect. -/
def declineAction (s : ChatState) (id : Nat) : ChatState :=
  { s with confirming := s.confirming.erase id }

/-- Outcome of `api.executeAIAction`: resolved with `success: true`, resolved
with `success: false`, or rejected (the `catch` arm). -/
inductive ExecOutcome where
  | ok
  | reportedFailure
  | thrown
deriving DecidableEq

/-- The assistant message appended for each execution outcome
(src/ai_chat.js:223, 231, 236). -/
def execMessage : ExecOutcome → String
  | .ok => "Действие выполнено успешно!"
  | .reportedFailure => "Извините, не удалось выполнить действие."
  | .thrown => "Произошла ошибка при выполнении действия."

/-- The user confirming the dialog in `handleSuggestedAction`
(src/ai_chat.js:216-238): issue the execute request and append the message
for its outcome. -/
def confirmAction (s : ChatState) (id : Nat) (outcome : ExecOutcome) : ChatState :=
  { s with
    messages := s.messages ++ [Msg.assistant (execMessage outcome)],
    confirming := s.confirming.erase id,
    execCalls := s.execCalls + 1 }

/-- Controller states reachable by any interleaving of chat events.  A reply
resolution/rejection may fire only for a send that is actually in flight, and
a dialog choice only for a turn actually awaiting confirmation; nothing in
src/ai_chat.js prevents a new send while another is in flight. -/
inductive ChatReachable : ChatState → Prop where
  | initEv (name : String) : ChatReachable (initState name)
  | sendEv (s : ChatState) (input : String) :
      ChatReachable s → ChatReachable (handleSendMessage s input)
  | resolveEv (s : ChatState) (id : Nat) (reply : String) (hasAction : Bool) :
      ChatReachable s → id ∈ s.pending → ChatReachable (resolveReply s id reply hasAction)
  | rejectEv (s : ChatState) (id : Nat) :
      ChatReachable s → id ∈ s.pending → ChatReachable (rejectReply s id)
  | declineEv (s : ChatState) (id : Nat) :
      ChatReachable s → id ∈ s.confirming → ChatReachable (declineAction s id)
  | confirmEv (s : ChatState) (id : Nat) (outcome : ExecOutcome) :
      ChatReachable s → id ∈ s.confirming → ChatReachable (confirmAction s id outcome)

/-! ## Simulated HTTP backend (API module) -/

/-- The `MOCK_DATA.user` fixture record. -/
structure MockUser where
  id : Nat
  name : String
  email : String
  balance : Nat
deriving DecidableEq

/-- `MOCK_DATA.user`. -/
def MOCK_USER : MockUser :=
  { id := 1, name := "John Doe", email := "john@example.com", balance := 250000 }

/-- `MOCK_DATA.token`. -/
def MOCK_TOKEN : String :=
  "mock_jwt_token_12345"

/-- One canned assistant response from `MOCK_DATA.aiResponses`: the reply
text and whether a `suggested_action` accompanies it. -/
structure AiResponse where
  text : String
  hasSuggestedAction : Bool
deriving DecidableEq

/-- The `MOCK_DATA.aiResponses` table, in declaration order. -/
def AI_RESPONSES : List (String × AiResponse) :=
  [("баланс",
    ⟨"Ваш текущий баланс составляет 250,000 ₸. У вас есть 3 активные финансовые цели.", false⟩),
   ("помоги с целями",
    ⟨"У вас 3 финансовые цели. Рекомендую увеличить ежемесячные взносы на Emergency Fund на 10,000 ₸.", true⟩),
   ("создай новую цель",
    ⟨"Хорошо! Давайте создадим новую финансовую цель. Какую сумму вы хотите накопить?", false⟩)]

/-- The default canned response, `MOCK_DATA.aiResponses['баланс']`. -/
def mockAiDefault : AiResponse :=
  ⟨"Ваш текущий баланс составляет 250,000 ₸. У вас есть 3 активные финансовые цели.", false⟩

/-- The `/ai/message` branch of `mockPost`: first table key occurring as a
substring of the lowercased message wins, defaulting to the balance reply. -/
def mockAiLookup (messageLower : String) : AiResponse :=
  match AI_RESPONSES.find? (fun kv => containsSub messageLower kv.1) with
  | some kv => kv.2
  | none => mockAiDefault

/-- A JSON request body for `mockPost`; only the fields the mock dispatch
reads are modelled. -/
structure PostBody where
  email : Option String
  password : Option String
  name : Option String
  message : Option String
deriving DecidableEq

/-- The response value handed to `resolve` by each `mockPost` branch.  The
`/goals` branch of the source additionally pushes the echoed goal onto
`MOCK_DATA.goals` with `current_amount: 0`; that fixture mutation is not
needed by any claim settled here. -/
inductive MockPostResult where
  | loginResp (user_id : Nat) (access_token : String) (user : MockUser)
  | registerResp (user_id : Nat) (access_token : String)
  | aiMessageResp (r : AiResponse)
  | aiExecuteResp (success : Bool)
  | goalCreated (body : PostBody) (current_amount : Nat)
  | genericResp (message : String)
deriving DecidableEq

/-- `mockPost(path, body)` from the API module: a promise that only ever
resolves (never rejects), after the fixed `setTimeout` delay of 500, with the
first branch whose substring the path contains.  Modelled as the pair of that
delay and the resolved value. -/
def mockPost (path : String) (body : PostBody) : Nat × MockPostResult :=
  (500,
    if containsSub path "/auth/login" then
      .loginResp MOCK_USER.id MOCK_TOKEN MOCK_USER
    else if containsSub path "/auth/register" then
      .registerResp MOCK_USER.id MOCK_TOKEN
    else if containsSub path "/ai/message" then
      .aiMessageResp (mockAiLookup (jsToLowerCase (body.message.getD "")))
    else if containsSub path "/ai/execute" then
      .aiExecuteResp true
    else if containsSub path "/goals" then
      .goalCreated body 0
    else
      .genericResp "Mock POST response")

/-- `api.login(email, password)` in mock mode: `post('/auth/login',
{email, password})`, which dispatches to `mockPost`. -/
def login (email password : String) : Nat × MockPostResult :=
  mockPost "/auth/login" { email := some email, password := some password,
                           name := none, message := none }

/-! ## Helper lemmas -/

theorem indicatorIds_nil : indicatorIds [] = [] := rfl

theorem indicatorIds_cons_user (t : String) (l : List Msg) :
    indicatorIds (Msg.user t :: l) = indicatorIds l := by
  simp [indicatorIds, indicatorId, List.filterMap_cons]

theorem indicatorIds_cons_assistant (t : String) (l : List Msg) :
    indicatorIds (Msg.assistant t :: l) = indicatorIds l := by
  simp [indicatorIds, indicatorId, List.filterMap_cons]

theorem indicatorIds_cons_indicator (j : Nat) (l : List Msg) :
    indicatorIds (Msg.indicator j :: l) = j :: indicatorIds l := by
  simp [indicatorIds, indicatorId, List.filterMap_cons]

theorem indicatorIds_append (l r : List Msg) :
    indicatorIds (l ++ r) = indicatorIds l ++ indicatorIds r := by
  simp [indicatorIds, List.filterMap_append]

theorem indicatorIds_removeIndicator (id : Nat) (l : List Msg) :
    indicatorIds (removeIndicator id l) = (indicatorIds l).erase id := by
  induction l with
  | nil => rfl
  | cons m rest ih =>
    by_cases hm : m = Msg.indicator id
    · subst hm
      simp [removeIndicator, indicatorIds_cons_indicator]
    · cases m with
      | user t =>
        simp only [removeIndicator, if_neg hm, indicatorIds_cons_user, ih]
      | assistant t =>
        simp only [removeIndicator, if_neg hm, indicatorIds_cons_assistant, ih]
      | indicator j =>
        have hj : (j == id) = false := by
          simp only [beq_eq_false_iff_ne, ne_eq]
          intro h
          exact hm (by rw [h])
        simp only [removeIndicator, if_neg hm, indicatorIds_cons_indicator, ih,
          List.erase_cons, hj, if_false, Bool.false_eq_true]

theorem removeIndicator_append_fresh (id : Nat) (l r : List Msg)
    (h : Msg.indicator id ∉ l) :
    removeIndicator id (l ++ Msg.indicator id :: r) = l ++ r := by
  induction l with
  | nil => simp [removeIndicator]
  | cons m rest ih =>
    have hm : m ≠ Msg.indicator id := fun he => h (he ▸ List.mem_cons_self m rest)
    have hrest : Msg.indicator id ∉ rest := fun hr => h (List.mem_cons_of_mem m hr)
    simp [removeIndicator, hm, ih hrest]

/-- Invariant behind the typing-indicator claim: in every reachable
controller state, the indicator ids present in the message container are
exactly the ids of sends still awaiting a reply, in order. -/
theorem reachable_indicatorIds_eq_pending (s : ChatState) (h : ChatReachable s) :
    indicatorIds s.messages = s.pending := by
  induction h with
  | initEv name => rfl
  | sendEv s input _ ih =>
    by_cases he : (jsTrim input).isEmpty
    · simpa [handleSendMessage, he] using ih
    · simp only [handleSendMessage, he, Bool.false_eq_true, if_false, indicatorIds_append,
        indicatorIds_cons_user, indicatorIds_cons_indicator, indicatorIds_nil, ih]
  | resolveEv s id reply hasAction _ _ ih =>
    simp only [resolveReply, indicatorIds_append, indicatorIds_removeIndicator,
      indicatorIds_cons_assistant, indicatorIds_nil, List.append_nil, ih]
  | rejectEv s id _ _ ih =>
    simp only [rejectReply, indicatorIds_append, indicatorIds_removeIndicator,
      indicatorIds_cons_assistant, indicatorIds_nil, List.append_nil, ih]
  | declineEv s id _ _ ih =>
    simpa [declineAction] using ih
  | confirmEv s id outcome _ _ ih =>
    simp only [confirmAction, indicatorIds_append, indicatorIds_cons_assistant,
      indicatorIds_nil, List.append_nil, ih]

theorem speak_disabled_noop (s : SpeechState) (t : String)
    (h : s.isSpeechEnabled = false) :
    speak t s = s := by
  simp [speak, h]

theorem foldl_speak_disabled (texts : List String) (st : SpeechState)
    (h : st.isSpeechEnabled = false) :
    List.foldl (fun acc t => speak t acc) st texts = st := by
  induction texts with
  | nil => rfl
  | cons t rest ih =>
    rw [List.foldl_cons, speak_disabled_noop st t h]
    exact ih

/-! ## Claims -/

/-- Claim C1 (amended): in every reachable controller state the number of
typing-indicator placeholders equals the number of sends still awaiting a
reply — each send appends exactly one indicator and removes it before
appending its reply or apology — so whenever at most one send is in flight
(the non-overlapping case) at most one indicator is present.  Overlapping
sends, which nothing in the code guards against, display one indicator per
in-flight send. -/
theorem chat_indicator_count_eq_pending (s : ChatState) (h : ChatReachable s) :
    indicatorCount s.messages = s.pending.length ∧
      (s.pending.length ≤ 1 → indicatorCount s.messages ≤ 1) := by
  have hinv := reachable_indicatorIds_eq_pending s h
  refine ⟨by simp [indicatorCount, hinv], fun hp => ?_⟩
  simpa [indicatorCount, hinv] using hp

/-- Witness for `chat_indicator_count_eq_pending` at the state one send after
initialisation. -/
theorem chat_indicator_count_eq_pending_witness :
    indicatorCount (handleSendMessage (initState "John Doe") "баланс").messages =
        (handleSendMessage (initState "John Doe") "баланс").pending.length ∧
      ((handleSendMessage (initState "John Doe") "баланс").pending.length ≤ 1 →
        indicatorCount (handleSendMessage (initState "John Doe") "баланс").messages ≤ 1) :=
  chat_indicator_count_eq_pending _
    (ChatReachable.sendEv _ _ (ChatReachable.initEv "John Doe"))

/-- Counterexample to claim C1 as stated: two sends issued back-to-back
(the second typed while the first reply is still pending — the interleaving
the spec's own concurrency note admits) reach a state whose message container
holds two typing indicators at once. -/
theorem chat_two_indicators_reachable :
    ChatReachable (handleSendMessage (handleSendMessage (initState "John Doe") "баланс") "цели") ∧
      indicatorCount
        (handleSendMessage (handleSendMessage (initState "John Doe") "баланс") "цели").messages = 2 :=
  ⟨ChatReachable.sendEv _ _ (ChatReachable.sendEv _ _ (ChatReachable.initEv "John Doe")),
   by decide⟩

theorem vmaxCheck_ok_iff (num : ℚ) (max : Option ℚ) :
    (vmaxCheck num max).ok = true ↔ ∀ M, max = some M → num ≤ M := by
  cases max with
  | none => simp [vmaxCheck]
  | some mx =>
    by_cases hx : num > mx
    · simp [vmaxCheck, hx, not_le.mpr hx]
    · simp [vmaxCheck, hx, not_lt.mp hx]

/-- Claim C2: `validateNumber` returns `ok = true` exactly when the value
parses as a number and lies within each supplied bound (min inclusive, max
inclusive), either bound optional. -/
theorem validateNumber_ok_iff (value min max : Option ℚ) :
    (validateNumber value min max).ok = true ↔
      ∃ num, value = some num ∧ (∀ m, min = some m → m ≤ num) ∧
        (∀ M, max = some M → num ≤ M) := by
  cases value with
  | none => simp [validateNumber]
  | some num =>
    cases min with
    | none => simp [validateNumber, vmaxCheck_ok_iff]
    | some mn =>
      by_cases hn : num < mn
      · simp [validateNumber, hn, not_le.mpr hn]
      · simp [validateNumber, hn, vmaxCheck_ok_iff, not_lt.mp hn]

/-- Counterexample to claim C3 as stated: with the recognition object
initialised and the adapter already listening, a further `startListening`
call does not invoke `onError` (the claim says it fails via `onError`); the
state is indeed unchanged. -/
theorem startListening_no_onError_when_listening :
    (startListening true false
        ⟨true, true, true, none, true⟩).2.errorCalled = false ∧
      (startListening true false
        ⟨true, true, true, none, true⟩).1 = ⟨true, true, true, none, true⟩ := by
  decide

/-- Claim C3 (amended): a `startListening` call made while the adapter is
already `Listening` (recognition object initialised) is a silent no-op:
neither callback is invoked, no recognition session is opened, and the state
is unchanged. -/
theorem startListening_already_listening_noop (supported startThrows : Bool)
    (s : SpeechState) (hr : s.recognitionInit = true) (hl : s.isListening = true) :
    startListening supported startThrows s = (s, ⟨false, false⟩) := by
  cases s with
  | mk r l en sp sy =>
    simp_all [startListening]

/-- Witness for `startListening_already_listening_noop` at a concrete
listening state. -/
theorem startListening_already_listening_noop_witness :
    startListening true false ⟨true, true, false, none, true⟩ =
      (⟨true, true, false, none, true⟩, ⟨false, false⟩) :=
  startListening_already_listening_noop true false
    ⟨true, true, false, none, true⟩ rfl rfl

/-- Counterexample to claim C4 as stated: `calculatePercentage` has no lower
clamp, so a negative current amount yields a negative percentage, outside
[0, 100]. -/
theorem calculatePercentage_negative_unclamped :
    calculatePercentage (-100) 100 = -100 ∧ calculatePercentage (-100) 100 < 0 := by
  constructor <;> norm_num [calculatePercentage, jsRound]

/-- Claim C4 (amended): for every target `T > 0`, `calculatePercentage` is
monotonically non-decreasing in the current amount; for every non-negative
current amount its value lies in [0, 100] (negative current amounts are not
clamped below); and `calculatePercentage 0 T = 0`,
`calculatePercentage T T = 100`, `calculatePercentage (2*T) T = 100`. -/
theorem calculatePercentage_monotone_clamped (T : ℚ) (hT : 0 < T) :
    (∀ c1 c2 : ℚ, c1 ≤ c2 → calculatePercentage c1 T ≤ calculatePercentage c2 T) ∧
      (∀ c : ℚ, 0 ≤ c → 0 ≤ calculatePercentage c T ∧ calculatePercentage c T ≤ 100) ∧
      calculatePercentage 0 T = 0 ∧
      calculatePercentage T T = 100 ∧
      calculatePercentage (2 * T) T = 100 := by
  have hT0 : T ≠ 0 := ne_of_gt hT
  refine ⟨?_, ?_, ?_, ?_, ?_⟩
  · intro c1 c2 h12
    simp only [calculatePercentage, if_neg hT0, jsRound]
    refine min_le_min (Int.floor_le_floor ?_) le_rfl
    have hdiv : c1 / T ≤ c2 / T := by gcongr
    have hmul : c1 / T * 100 ≤ c2 / T * 100 := by
      exact mul_le_mul_of_nonneg_right hdiv (by norm_num)
    linarith
  · intro c hc
    constructor
    · simp only [calculatePercentage, if_neg hT0, jsRound]
      refine le_min ?_ (by norm_num)
      refine Int.le_floor.mpr ?_
      have : (0 : ℚ) ≤ c / T * 100 := by positivity
      push_cast
      linarith
    · simp only [calculatePercentage, if_neg hT0]
      exact min_le_right _ _
  · simp only [calculatePercentage, if_neg hT0, jsRound, zero_div, zero_mul, zero_add]
    norm_num
  · simp only [calculatePercentage, if_neg hT0, jsRound, div_self hT0, one_mul]
    norm_num
  · have h2 : 2 * T / T = 2 := by field_simp
    simp only [calculatePercentage, if_neg hT0, jsRound, h2]
    norm_num

/-- Witness for `calculatePercentage_monotone_clamped` at `T = 4`. -/
theorem calculatePercentage_monotone_clamped_witness :
    calculatePercentage 0 4 = 0 ∧ calculatePercentage 4 4 = 100 ∧
      calculatePercentage (2 * 4) 4 = 100 :=
  ⟨(calculatePercentage_monotone_clamped 4 (by norm_num)).2.2.1,
   (calculatePercentage_monotone_clamped 4 (by norm_num)).2.2.2.1,
   (calculatePercentage_monotone_clamped 4 (by norm_num)).2.2.2.2⟩

/-- Claim C5: an input whose trimmed value is empty makes the whole send
submission (button, Enter, or voice transcript auto-send) a silent no-op: no
message is appended, the reply endpoint is not called, and the controller
stays in `AwaitingInput` — the state is unchanged. -/
theorem handleSendMessage_empty_noop (s : ChatState) (input : String)
    (h : (jsTrim input).isEmpty = true) :
    handleSendMessage s input = s := by
  simp [handleSendMessage, h]

/-- Witness for `handleSendMessage_empty_noop` at a whitespace-only input. -/
theorem handleSendMessage_empty_noop_witness :
    handleSendMessage (initState "John Doe") "   " = initState "John Doe" :=
  handleSendMessage_empty_noop (initState "John Doe") "   " (by decide)

/-- Claim C6: a turn whose reply carries a suggested action that the user
then declines calls the execute endpoint zero times and leaves the message
sequence equal to the previous one extended by exactly the user message and
the assistant reply; no other controller field changes (the turn consumes a
reply call and a fresh indicator id).  The freshness hypotheses hold in every
reachable state, the code drawing ids from the clock. -/
theorem declined_action_frame (s : ChatState) (input reply : String)
    (h1 : (jsTrim input).isEmpty = false)
    (h2 : Msg.indicator s.nextId ∉ s.messages)
    (h3 : s.nextId ∉ s.pending)
    (h4 : s.nextId ∉ s.confirming) :
    declineAction (resolveReply (handleSendMessage s input) s.nextId reply true) s.nextId =
      { s with
        messages := s.messages ++ [Msg.user (jsTrim input), Msg.assistant reply],
        replyCalls := s.replyCalls + 1,
        nextId := s.nextId + 1 } := by
  have hmsg : removeIndicator s.nextId
      (s.messages ++ [Msg.user (jsTrim input), Msg.indicator s.nextId]) =
      s.messages ++ [Msg.user (jsTrim input)] := by
    have hfresh : Msg.indicator s.nextId ∉ s.messages ++ [Msg.user (jsTrim input)] := by
      simp [h2]
    simpa using removeIndicator_append_fresh s.nextId
      (s.messages ++ [Msg.user (jsTrim input)]) [] hfresh
  have hpend : (s.pending ++ [s.nextId]).erase s.nextId = s.pending := by
    rw [List.erase_append_right _ h3]
    simp
  have hconf : (s.confirming ++ [s.nextId]).erase s.nextId = s.confirming := by
    rw [List.erase_append_right _ h4]
    simp
  simp [handleSendMessage, h1, resolveReply, declineAction, hmsg, hpend, hconf]

/-- Witness for `declined_action_frame` one turn after initialisation. -/
theorem declined_action_frame_witness :
    declineAction (resolveReply (handleSendMessage (initState "John Doe") "помоги с целями")
        (initState "John Doe").nextId "Рекомендую увеличить взносы." true)
        (initState "John Doe").nextId =
      { initState "John Doe" with
        messages := (initState "John Doe").messages ++
          [Msg.user (jsTrim "помоги с целями"), Msg.assistant "Рекомендую увеличить взносы."],
        replyCalls := (initState "John Doe").replyCalls + 1,
        nextId := (initState "John Doe").nextId + 1 } :=
  declined_action_frame (initState "John Doe") "помоги с целями"
    "Рекомендую увеличить взносы." (by decide) (by decide) (by decide) (by decide)

/-- Claim C7: when the reply request rejects, the turn removes its typing
indicator, appends exactly one fixed apology assistant message, returns the
controller to `AwaitingInput` (the in-flight set is restored), and has called
the reply endpoint exactly once — no retry, and the execute endpoint is
untouched. -/
theorem reply_failure_apology (s : ChatState) (input : String)
    (h1 : (jsTrim input).isEmpty = false)
    (h2 : Msg.indicator s.nextId ∉ s.messages)
    (h3 : s.nextId ∉ s.pending) :
    rejectReply (handleSendMessage s input) s.nextId =
      { s with
        messages := s.messages ++ [Msg.user (jsTrim input), Msg.assistant apologyText],
        replyCalls := s.replyCalls + 1,
        nextId := s.nextId + 1 } := by
  have hmsg : removeIndicator s.nextId
      (s.messages ++ [Msg.user (jsTrim input), Msg.indicator s.nextId]) =
      s.messages ++ [Msg.user (jsTrim input)] := by
    have hfresh : Msg.indicator s.nextId ∉ s.messages ++ [Msg.user (jsTrim input)] := by
      simp [h2]
    simpa using removeIndicator_append_fresh s.nextId
      (s.messages ++ [Msg.user (jsTrim input)]) [] hfresh
  have hpend : (s.pending ++ [s.nextId]).erase s.nextId = s.pending := by
    rw [List.erase_append_right _ h3]
    simp
  simp [handleSendMessage, h1, rejectReply, hmsg, hpend]

/-- Witness for `reply_failure_apology` one turn after initialisation. -/
theorem reply_failure_apology_witness :
    rejectReply (handleSendMessage (initState "John Doe") "баланс")
        (initState "John Doe").nextId =
      { initState "John Doe" with
        messages := (initState "John Doe").messages ++
          [Msg.user (jsTrim "баланс"), Msg.assistant apologyText],
        replyCalls := (initState "John Doe").replyCalls + 1,
        nextId := (initState "John Doe").nextId + 1 } :=
  reply_failure_apology (initState "John Doe") "баланс" (by decide) (by decide) (by decide)

/-- Claim C8: `setSpeechEnabled false` cancels any in-progress utterance
immediately (given the synthesiser exists, which it does whenever an
utterance is in progress), and every subsequent sequence of `speak` calls
leaves the state untouched — no utterance starts — until the flag is set
back to true. -/
theorem setSpeechEnabled_false_cancels_blocks (s : SpeechState) (texts : List String)
    (h : s.synthAvail = true) :
    (setSpeechEnabled false s).speaking = none ∧
      List.foldl (fun acc t => speak t acc) (setSpeechEnabled false s) texts =
        setSpeechEnabled false s := by
  have hdis : (setSpeechEnabled false s).isSpeechEnabled = false := by
    simp [setSpeechEnabled, stopSpeaking, h]
  constructor
  · simp [setSpeechEnabled, stopSpeaking, h]
  · exact foldl_speak_disabled texts _ hdis

/-- Witness for `setSpeechEnabled_false_cancels_blocks`: disable mid-utterance
and then attempt two speaks. -/
theorem setSpeechEnabled_false_cancels_blocks_witness :
    (setSpeechEnabled false ⟨false, false, true, some "привет", true⟩).speaking = none ∧
      List.foldl (fun acc t => speak t acc)
        (setSpeechEnabled false ⟨false, false, true, some "привет", true⟩) ["a", "b"] =
        setSpeechEnabled false ⟨false, false, true, some "привет", true⟩ :=
  setSpeechEnabled_false_cancels_blocks ⟨false, false, true, some "привет", true⟩
    ["a", "b"] rfl

/-- Claim C9: `login` in simulated mode resolves (the mock promise only ever
calls `resolve`) after the fixed 500-unit delay with exactly
`{user_id: 1, access_token: "mock_jwt_token_12345", user: MOCK_USER}`, for
every email and password. -/
theorem mock_login_resolves_fixture (email password : String) :
    login email password = (500, MockPostResult.loginResp 1 "mock_jwt_token_12345" MOCK_USER) := by
  rfl

/-- Claim C10: a zero target short-circuits `calculatePercentage` to `0`
before the division, for every current amount. -/
theorem calculatePercentage_zero_total (c : ℚ) :
    calculatePercentage c 0 = 0 := by
  simp [calculatePercentage]
